import Mathlib

/-!
# Verification of the diet-agent repository

Shallow embedding of the two Python source files of `vlasov01/diet-agent`:

* `src/agent.py` — tool functions (`interview`, `say_goodbye`,
  `get_current_month_day`, `get_current_season`) and the module-level
  construction of the agent tree with its telemetry callbacks;
* `src/diet-app.py` — the Streamlit chat client (`create_session`,
  `send_message`).

Pure functions are translated to Lean functions.  The system clock, the HTTP
layer and the instruction-file loader are external collaborators: they enter
the embedding as explicit parameters (the current month, an abstract outcome
of the HTTP exchange, a file-name-to-text map).  Python code that can raise
is modelled with `Except`; everything else is total, mirroring the fact that
the corresponding Python bodies contain no raising operations.
-/

namespace DietAgent

/-! ## Decimal formatting

Python renders integers into f-strings in decimal (`f"session-{int(time.time())}"`,
`f"API Error: {e.response.status_code} - ..."`).  `decimalRepr` embeds that
formatting.  It is written with explicit fuel so that it reduces in the
kernel; `toDecimalAux_eq_digits` ties it to Mathlib's `Nat.digits`. -/

/-- Little-endian decimal digit characters of `n`, with explicit fuel
(`n` itself is always enough fuel). -/
def toDecimalAux : Nat → Nat → List Char
  | 0, _ => []
  | fuel + 1, n =>
    if n = 0 then [] else Nat.digitChar (n % 10) :: toDecimalAux fuel (n / 10)

/-- Decimal string representation of a natural number, as Python's `str(int)`
produces it. -/
def decimalRepr (n : Nat) : String :=
  if n = 0 then "0" else ⟨(toDecimalAux n n).reverse⟩

/-! ## `src/agent.py` — tool functions -/

/-- `interview` (src/agent.py lines 35–53).  The Python function loads
`diet_interview_instruction.txt` through `util.load_instruction_from_file`,
picks a greeting by the truthiness of `name` (`None` and `""` are falsy) and
returns `greeting + interview`.

Modelled from the spec: `util.load_instruction_from_file` lives in `util.py`,
which is not among the sources; spec §6 says instruction templates are
"plain text files loaded by name at agent-construction time and used
verbatim", with no failure mode (§4.1: none of the tool functions raise).
The loader is therefore modelled as an arbitrary total map `load` from file
name to file text, passed as a parameter. -/
def interview (load : String → String) (name : Option String) : String :=
  let interview := load "diet_interview_instruction.txt"
  let greeting :=
    match name with
    | some n => if n = "" then "Hello there!" else "Hello, " ++ n ++ "!"
    | none => "Hello there!"
  greeting ++ interview

/-- `say_goodbye` (src/agent.py lines 55–58): returns a fixed farewell. -/
def say_goodbye : String := "Goodbye! Have a great day."

/-- Return shape of `get_current_month_day`: the Python dict
`{"status": ..., "report": ...}`. -/
structure MonthDayReport where
  status : String
  report : String
deriving DecidableEq, Repr

/-- `get_current_month_day` (src/agent.py lines 60–72).  The system clock is
external: `formatted` stands for `now.strftime("%B %d")`. -/
def get_current_month_day (formatted : String) : MonthDayReport :=
  { status := "success", report := "The current month and day are " ++ formatted }

/-- `get_current_season` (src/agent.py lines 74–90), with the month of
`datetime.datetime.now()` made explicit. -/
def get_current_season (month : Nat) : String :=
  if 3 ≤ month ∧ month ≤ 5 then "Spring"
  else if 6 ≤ month ∧ month ≤ 8 then "Summer"
  else if 9 ≤ month ∧ month ≤ 11 then "Autumn"
  else "Winter"

/-! ## `src/agent.py` — module-level agent construction -/

/-- The agents constructed at module level in src/agent.py. -/
inductive AgentName where
  | interview_agent
  | farewell_agent
  | agent_search
  | diet_writer_agent
  | grocery_promo_scout
  | grocery_shopper
  | formatter_agent
  | personalized_diet_agent
deriving DecidableEq, Repr

/-- Whether an agent's construction is wrapped in `try/except` in
src/agent.py.  Only `interview_agent` (lines 92–109) and `farewell_agent`
(lines 112–128) are; `Agent_Search` (130), `diet_writer_agent` (146),
`grocery_promo_scout` (160), `grocery_shopper` (174) and `formatter_agent`
(190) are plain top-level assignments. -/
def guarded : AgentName → Bool
  | .interview_agent => true
  | .farewell_agent => true
  | _ => false

/-- The leaf agents, in the order their constructions execute at import time. -/
def leafAgents : List AgentName :=
  [.interview_agent, .farewell_agent, .agent_search, .diet_writer_agent,
   .grocery_promo_scout, .grocery_shopper, .formatter_agent]

/-- Which leaf-agent module variables hold an agent after import
(`true` = bound to an `Agent`, `false` = still `None`). -/
structure LeafAgentsState where
  interview_agent : Bool
  farewell_agent : Bool
  agent_search : Bool
  diet_writer_agent : Bool
  grocery_promo_scout : Bool
  grocery_shopper : Bool
  formatter_agent : Bool
deriving DecidableEq, Repr

/-- How a leaf-agent construction failure escapes module initialization:

* `handlerAttributeError a` — the construction of a *guarded* agent raised,
  and the `except` handler's own log f-string then dereferenced the
  still-`None` variable (`interview_agent.model` at agent.py line 109,
  `farewell_agent.model` at line 128), raising `AttributeError` out of the
  handler before anything is logged;
* `constructorError a` — the construction of an *unguarded* agent raised
  and the original exception propagated directly. -/
inductive InitFailure where
  | handlerAttributeError (a : AgentName)
  | constructorError (a : AgentName)
deriving DecidableEq, Repr

/-- Import-time execution of the leaf-agent constructions in src/agent.py
(lines 92–201), in source order.  `fails a` abstracts whether the
`Agent(...)`/`LlmAgent(...)` constructor call for `a` raises (e.g. on
missing credentials).  No failure is survived: for the two guarded
constructions the `except` handler evaluates
`f"❌ Could not create ... ({interview_agent.model}) ..."` while the
variable is still `None`, so the handler itself raises `AttributeError`
(lines 109/128) and import aborts without logging; the five unguarded
constructions propagate the original exception.  Import succeeds — with
every leaf variable bound — exactly when every construction succeeds. -/
def module_init (fails : AgentName → Bool) : Except InitFailure LeafAgentsState :=
  if fails .interview_agent then .error (.handlerAttributeError .interview_agent)
  else if fails .farewell_agent then .error (.handlerAttributeError .farewell_agent)
  else if fails .agent_search then .error (.constructorError .agent_search)
  else if fails .diet_writer_agent then .error (.constructorError .diet_writer_agent)
  else if fails .grocery_promo_scout then .error (.constructorError .grocery_promo_scout)
  else if fails .grocery_shopper then .error (.constructorError .grocery_shopper)
  else if fails .formatter_agent then .error (.constructorError .formatter_agent)
  else .ok ⟨true, true, true, true, true, true, true⟩

/-- The six lifecycle callback slots of an agent; `some s` records that the
slot is populated and `s` names the source expression put there. -/
structure AgentCallbacks where
  before_agent_callback : Option String
  after_agent_callback : Option String
  before_model_callback : Option String
  after_model_callback : Option String
  before_tool_callback : Option String
  after_tool_callback : Option String
deriving DecidableEq, Repr

/-- Callback keyword arguments of each agent construction in src/agent.py,
transcribed from the source.  `interview_agent` (92–106) and
`farewell_agent` (112–125) pass no callbacks; `Agent_Search` (130–144),
`diet_writer_agent` (146–158), `grocery_promo_scout` (160–172),
`grocery_shopper` (174–186) and `formatter_agent` (190–201) pass five
(no `before_agent_callback`); `personalized_diet_agent` (204–226) passes
all six. -/
def callbacksOf : AgentName → AgentCallbacks
  | .interview_agent => ⟨none, none, none, none, none, none⟩
  | .farewell_agent => ⟨none, none, none, none, none, none⟩
  | .agent_search =>
    ⟨none, some "opik_tracer.after_agent_callback",
     some "opik_tracer.before_model_callback", some "opik_tracer.after_model_callback",
     some "opik_tracer.before_tool_callback", some "opik_tracer.after_tool_callback"⟩
  | .diet_writer_agent =>
    ⟨none, some "opik_tracer.after_agent_callback",
     some "opik_tracer.before_model_callback", some "opik_tracer.after_model_callback",
     some "opik_tracer.before_tool_callback", some "opik_tracer.after_tool_callback"⟩
  | .grocery_promo_scout =>
    ⟨none, some "opik_tracer.after_agent_callback",
     some "opik_tracer.before_model_callback", some "opik_tracer.after_model_callback",
     some "opik_tracer.before_tool_callback", some "opik_tracer.after_tool_callback"⟩
  | .grocery_shopper =>
    ⟨none, some "opik_tracer.after_agent_callback",
     some "opik_tracer.before_model_callback", some "opik_tracer.after_model_callback",
     some "opik_tracer.before_tool_callback", some "opik_tracer.after_tool_callback"⟩
  | .formatter_agent =>
    ⟨none, some "opik_tracer.after_agent_callback",
     some "opik_tracer.before_model_callback", some "opik_tracer.after_model_callback",
     some "opik_tracer.before_tool_callback", some "opik_tracer.after_tool_callback"⟩
  | .personalized_diet_agent =>
    ⟨some "opik_tracer.before_agent_callback", some "opik_tracer.after_agent_callback",
     some "opik_tracer.before_model_callback", some "opik_tracer.after_model_callback",
     some "opik_tracer.before_tool_callback", some "opik_tracer.after_tool_callback"⟩

/-- What claim C4 (spec §4.4) asserts every agent carries: all six slots
populated with the corresponding `opik_tracer` method. -/
def fullOpikCallbacks : AgentCallbacks :=
  ⟨some "opik_tracer.before_agent_callback", some "opik_tracer.after_agent_callback",
   some "opik_tracer.before_model_callback", some "opik_tracer.after_model_callback",
   some "opik_tracer.before_tool_callback", some "opik_tracer.after_tool_callback"⟩

/-! ## `src/diet-app.py` — chat client -/

/-- One entry of `st.session_state.messages`. -/
structure ChatMessage where
  role : String
  content : String
deriving DecidableEq, Repr

/-- The client-side session state touched by `create_session`. -/
structure SessionState where
  session_id : Option String
  messages : List ChatMessage
deriving DecidableEq, Repr

/-- `create_session` (src/diet-app.py lines 65–93).  `now` is
`int(time.time())`; `status`/`body` are the HTTP response's status code and
text.  Result: (new session state, return value, message shown by
`st.error`, if any). -/
def create_session (st : SessionState) (now : Nat) (status : Nat) (body : String) :
    SessionState × Bool × Option String :=
  let session_id := "session-" ++ decimalRepr now
  if status = 200 then
    ({ st with session_id := some session_id, messages := [] }, true, none)
  else
    (st, false, some ("Failed to create session: " ++ body))

/-- A JSON part object, restricted to what line 182 of src/diet-app.py
inspects: key membership (`"text" in parts[0]`) and the `"text"` value.
Modelled as an association list from key to string value. -/
abbrev Part := List (String × String)

/-- The `"content"` object of an event: optional `"role"` and `"parts"`. -/
structure Content where
  role : Option String
  parts : Option (List Part)
deriving DecidableEq, Repr

/-- One element of the JSON array returned by `POST /run`, restricted to the
fields the client reads. -/
structure Event where
  content : Option Content
deriving DecidableEq, Repr

/-- `event.get("content", {}).get("role")` (line 182). -/
def contentRole (e : Event) : Option String :=
  match e.content with
  | some c => c.role
  | none => none

/-- `event.get("content", {}).get("parts", [{}])` (line 182): a missing
`content` or `parts` defaults to `[{}]`; a present, possibly empty, list is
returned as is. -/
def contentParts (e : Event) : List Part :=
  match e.content with
  | some c => c.parts.getD [[]]
  | none => [[]]

/-- `"text" in part` / `part["text"]` on a part object. -/
def partText (p : Part) : Option String :=
  p.lookup "text"

/-- The scan of lines 180–183 of src/diet-app.py:

```
for event in events:
    if event.get("content", {}).get("role") == "model" and
       "text" in event.get("content", {}).get("parts", [{}])[0]:
        assistant_message = event["content"]["parts"][0]["text"]
```

`acc` is the current value of `assistant_message`.  Indexing `[0]` into an
explicitly empty `parts` list raises `IndexError("list index out of range")`,
recorded as `Except.error` with the exception's `str`. -/
def scanEvents : List Event → Option String → Except String (Option String)
  | [], acc => .ok acc
  | e :: rest, acc =>
    if contentRole e = some "model" then
      match contentParts e with
      | [] => .error "list index out of range"
      | p :: _ =>
        match partText p with
        | some t => scanEvents rest (some t)
        | none => scanEvents rest acc
    else
      scanEvents rest acc

/-- Spec-side selection rule (spec §3, §6): "the last event whose content
role is \"model\" and whose first part contains text".  Written from the
spec's words, to be compared with the source-derived `scanEvents`. -/
def firstPartText (e : Event) : Option String :=
  (contentParts e).head?.bind partText

/-- Whether the spec's selection rule picks this event. -/
def isModelTextEvent (e : Event) : Bool :=
  contentRole e == some "model" && (firstPartText e).isSome

/-- The text of the last event selected by the spec's rule: the first match
in the reversed event list. -/
def specLastModelText (events : List Event) : Option String :=
  (events.reverse.find? isModelTextEvent).bind firstPartText

/-- Outcome of the HTTP exchange performed by `send_message` (lines
156–175), one constructor per disjoint outcome the `try/except` chain
distinguishes: `requests.exceptions.HTTPError` raised by
`raise_for_status()` (with the response's status code and reason),
`requests.exceptions.Timeout`, `requests.exceptions.ConnectionError`,
`json.JSONDecodeError` from `response.json()`, or a parsed JSON array of
events. -/
inductive ApiResult where
  | httpError (status : Nat) (reason : String)
  | timeout
  | connectionError
  | jsonError
  | ok (events : List Event)
deriving DecidableEq, Repr

/-- The outcomes handled by a dedicated `except` clause of `send_message`
(everything except a successfully parsed event list). -/
def isHandledFailure : ApiResult → Bool
  | .httpError _ _ => true
  | .timeout => true
  | .connectionError => true
  | .jsonError => true
  | .ok _ => false

/-- `send_message` (src/diet-app.py lines 119–237), restricted to its
observable effect on `st.session_state.messages` and its return value.
Inputs: the current `session_id`, the current message list, the user's
message, and the outcome of the HTTP exchange.  Mirrors the source:

* missing/empty `session_id` → error shown, `False`, no append (142–144);
* the user message is appended first (147);
* each `except` clause appends exactly one `⚠️`-prefixed assistant message
  and returns `False` (200–237); status 503 gets a special text (203–204);
* on a parsed event list, the scan of 180–183 either raises `IndexError`
  (turned by the final generic `except Exception` clause into an
  "Unexpected error" message, 232–237) or leaves `assistant_message` as its
  final value, which line 186 tests for *truthiness* (`if assistant_message:`):
  a nonempty text is appended and `True` returned (186–193), while a falsy
  value — `None` or the empty string — appends the no-response warning and
  returns `False` (194–198). -/
def send_message (session_id : Option String) (messages : List ChatMessage)
    (message : String) (result : ApiResult) : List ChatMessage × Bool :=
  match session_id with
  | none => (messages, false)
  | some sid =>
    if sid = "" then (messages, false)
    else
      let messages := messages ++ [⟨"user", message⟩]
      match result with
      | .httpError status reason =>
        let error_msg :=
          if status = 503 then
            "The model is currently overloaded. Please try again in a few moments."
          else
            "API Error: " ++ decimalRepr status ++ " - " ++ reason
        (messages ++ [⟨"assistant", "⚠️ " ++ error_msg⟩], false)
      | .timeout =>
        (messages ++ [⟨"assistant", "⚠️ " ++ "Request timed out. The server might be busy."⟩], false)
      | .connectionError =>
        (messages ++ [⟨"assistant", "⚠️ " ++ "Connection error. Please check if the API server is running."⟩], false)
      | .jsonError =>
        (messages ++ [⟨"assistant", "⚠️ " ++ "Invalid response format from the server."⟩], false)
      | .ok events =>
        match scanEvents events none with
        | .error s =>
          (messages ++ [⟨"assistant", "⚠️ " ++ ("Unexpected error: " ++ s)⟩], false)
        | .ok assistant_message =>
          match assistant_message with
          | some t =>
            if t = "" then
              (messages ++
                [⟨"assistant", "⚠️ " ++ "No response received from the model."⟩], false)
            else
              (messages ++ [⟨"assistant", t⟩], true)
          | none =>
            (messages ++
              [⟨"assistant", "⚠️ " ++ "No response received from the model."⟩], false)

/-! ## Helper lemmas on decimal formatting -/

theorem toDecimalAux_eq_digits :
    ∀ (fuel n : Nat), n ≤ fuel →
      toDecimalAux fuel n = (Nat.digits 10 n).map Nat.digitChar := by
  intro fuel
  induction fuel with
  | zero =>
    intro n hn
    have h0 : n = 0 := Nat.le_zero.mp hn
    subst h0
    simp [toDecimalAux]
  | succ f ih =>
    intro n hn
    by_cases h0 : n = 0
    · subst h0; simp [toDecimalAux]
    · rw [toDecimalAux, if_neg h0,
        Nat.digits_def' (by norm_num : (1 : Nat) < 10) (Nat.pos_of_ne_zero h0),
        List.map_cons]
      congr 1
      apply ih
      have hlt : n / 10 < n := Nat.div_lt_self (Nat.pos_of_ne_zero h0) (by norm_num)
      omega

theorem digitChar_inj_lt :
    ∀ d₁ < 10, ∀ d₂ < 10, Nat.digitChar d₁ = Nat.digitChar d₂ → d₁ = d₂ := by decide

theorem map_digitChar_inj :
    ∀ (l₁ l₂ : List Nat), (∀ d ∈ l₁, d < 10) → (∀ d ∈ l₂, d < 10) →
      l₁.map Nat.digitChar = l₂.map Nat.digitChar → l₁ = l₂ := by
  intro l₁
  induction l₁ with
  | nil =>
    intro l₂ _ _ h
    cases l₂ with
    | nil => rfl
    | cons b t => simp at h
  | cons a t ih =>
    intro l₂ h₁ h₂ h
    cases l₂ with
    | nil => simp at h
    | cons b t₂ =>
      simp only [List.map_cons, List.cons.injEq] at h
      have ha : a < 10 := h₁ a (by simp)
      have hb : b < 10 := h₂ b (by simp)
      have hab : a = b := digitChar_inj_lt a ha b hb h.1
      subst hab
      rw [ih t₂ (fun d hd => h₁ d (by simp [hd])) (fun d hd => h₂ d (by simp [hd])) h.2]

theorem decimalRepr_data (n : Nat) (hn : n ≠ 0) :
    (decimalRepr n).data = ((Nat.digits 10 n).map Nat.digitChar).reverse := by
  unfold decimalRepr
  rw [if_neg hn, toDecimalAux_eq_digits n n le_rfl]

theorem decimalRepr_ne_zero (n : Nat) (hn : n ≠ 0) : decimalRepr n ≠ decimalRepr 0 := by
  intro h
  have hd : ((Nat.digits 10 n).map Nat.digitChar).reverse = ['0'] := by
    rw [← decimalRepr_data n hn, h]; rfl
  have hmap : (Nat.digits 10 n).map Nat.digitChar = ['0'] := by
    have := congrArg List.reverse hd
    simpa using this
  cases hdig : Nat.digits 10 n with
  | nil => rw [hdig] at hmap; simp at hmap
  | cons d rest =>
    rw [hdig] at hmap
    cases rest with
    | cons _ _ => simp at hmap
    | nil =>
      simp only [List.map_cons, List.map_nil, List.cons.injEq, and_true] at hmap
      have hdlt : d < 10 := Nat.digits_lt_base (by norm_num) (by rw [hdig]; simp)
      have hd0 : d = 0 := digitChar_inj_lt d hdlt 0 (by norm_num) hmap
      have hof := Nat.ofDigits_digits 10 n
      rw [hdig, hd0] at hof
      simp [Nat.ofDigits] at hof
      exact hn hof.symm

theorem decimalRepr_injective : Function.Injective decimalRepr := by
  intro m n h
  by_cases hm : m = 0 <;> by_cases hn : n = 0
  · exact hm.trans hn.symm
  · exact absurd (h.symm.trans (by rw [hm])) (decimalRepr_ne_zero n hn)
  · exact absurd (h.trans (by rw [hn])) (decimalRepr_ne_zero m hm)
  · have hd := congrArg String.data h
    rw [decimalRepr_data m hm, decimalRepr_data n hn] at hd
    have hmap := List.reverse_injective hd
    have hdig := map_digitChar_inj _ _
      (fun d hdm => Nat.digits_lt_base (by norm_num) hdm)
      (fun d hdn => Nat.digits_lt_base (by norm_num) hdn) hmap
    exact Nat.digits.injective 10 hdig

/-! ## Claims about the tool functions (C7, C8, C9, C10) -/

/-- C7: for every month 1 ≤ m ≤ 12 of the system clock's current date,
`get_current_season` returns "Spring" iff m ∈ {3,4,5}, "Summer" iff
m ∈ {6,7,8}, "Autumn" iff m ∈ {9,10,11}, and "Winter" otherwise
(m ∈ {12,1,2}). -/
theorem get_current_season_ranges (m : Nat) (h₁ : 1 ≤ m) (h₂ : m ≤ 12) :
    (get_current_season m = "Spring" ↔ m = 3 ∨ m = 4 ∨ m = 5)
  ∧ (get_current_season m = "Summer" ↔ m = 6 ∨ m = 7 ∨ m = 8)
  ∧ (get_current_season m = "Autumn" ↔ m = 9 ∨ m = 10 ∨ m = 11)
  ∧ (get_current_season m = "Winter" ↔ m = 12 ∨ m = 1 ∨ m = 2) := by
  interval_cases m <;> decide

/-- Witness for C7 at the concrete month 4. -/
theorem get_current_season_ranges_witness : get_current_season 4 = "Spring" :=
  (get_current_season_ranges 4 (by decide) (by decide)).1.mpr (Or.inr (Or.inl rfl))

/-- C8: `interview(None)` returns "Hello there!" immediately followed by the
loaded instruction text, and `interview("Ada")` starts with "Hello, Ada!",
for any loader contents. -/
theorem interview_greeting (load : String → String) :
    interview load none = "Hello there!" ++ load "diet_interview_instruction.txt"
  ∧ interview load (some "Ada") = "Hello, Ada!" ++ load "diet_interview_instruction.txt" := by
  constructor <;> rfl

/-- C9: none of the tool functions raises (all are total in this embedding,
their Python bodies containing no raising operation once the clock is
readable and the spec-modelled loader is total): `say_goodbye` is the
constant farewell string, `get_current_month_day` always reports status
"success" with its fixed report shape, `get_current_season` always returns
one of the four season strings, and `interview` always returns a nonempty
greeting. -/
theorem tool_functions_total :
    say_goodbye = "Goodbye! Have a great day."
  ∧ (∀ d, (get_current_month_day d).status = "success"
      ∧ (get_current_month_day d).report = "The current month and day are " ++ d)
  ∧ (∀ m, get_current_season m = "Spring" ∨ get_current_season m = "Summer"
      ∨ get_current_season m = "Autumn" ∨ get_current_season m = "Winter")
  ∧ (∀ load name, 0 < (interview load name).length) := by
  refine ⟨rfl, fun d => ⟨rfl, rfl⟩, fun m => ?_, fun load name => ?_⟩
  · unfold get_current_season
    split_ifs <;> simp
  · cases name with
    | none =>
      show 0 < ("Hello there!" ++ load "diet_interview_instruction.txt").length
      rw [String.length_append]
      have h12 : ("Hello there!" : String).length = 12 := rfl
      omega
    | some n =>
      show 0 < ((if n = "" then "Hello there!" else "Hello, " ++ n ++ "!")
        ++ load "diet_interview_instruction.txt").length
      by_cases hn : n = ""
      · rw [if_pos hn, String.length_append]
        have h12 : ("Hello there!" : String).length = 12 := rfl
        omega
      · rw [if_neg hn, String.length_append, String.length_append, String.length_append]
        have h1 : ("!" : String).length = 1 := rfl
        omega

/-- C10: an empty-string name is falsy in Python, so `interview("")` behaves
exactly like `interview(None)`: the generic greeting, not "Hello, !". -/
theorem interview_empty_name (load : String → String) :
    interview load (some "") = interview load none
  ∧ interview load (some "") = "Hello there!" ++ load "diet_interview_instruction.txt"
  ∧ interview load (some "") ≠ "Hello, !" ++ load "diet_interview_instruction.txt" := by
  refine ⟨rfl, rfl, fun h => ?_⟩
  have h5 : (some ' ' : Option Char) = some ',' :=
    congrArg (fun s => (s.data.drop 5).head?) h
  exact absurd h5 (by decide)

/-! ## Claims about `create_session` (C5, C6) -/

/-- C5: when the server answers a session-creation request with a non-200
status, `create_session` leaves the session state untouched (in particular
`session_id` stays unset/unchanged), returns `False`, and displays the raw
response body inside the error message.  The embedding is total: the non-200
branch contains no raising operation. -/
theorem create_session_non200 (st : SessionState) (now status : Nat) (body : String)
    (h : status ≠ 200) :
    (create_session st now status body).1 = st
  ∧ (create_session st now status body).2.1 = false
  ∧ (create_session st now status body).2.2
      = some ("Failed to create session: " ++ body) := by
  simp [create_session, h]

/-- Witness for C5 at a concrete 500 response. -/
theorem create_session_non200_witness :
    (create_session ⟨none, []⟩ 1700000000 500 "boom").1 = ⟨none, []⟩
  ∧ (create_session ⟨none, []⟩ 1700000000 500 "boom").2.1 = false
  ∧ (create_session ⟨none, []⟩ 1700000000 500 "boom").2.2
      = some ("Failed to create session: " ++ "boom") :=
  create_session_non200 ⟨none, []⟩ 1700000000 500 "boom" (by decide)

/-- Counterexample to C6: two distinct successful "New Session" actions that
fall in the same clock second (`int(time.time())` equal) produce the *same*
session identifier — identifiers are derived solely from the integer
timestamp, so they can be reused. -/
theorem create_session_same_second_counterexample :
    (create_session ⟨none, []⟩ 1700000000 200 "").1.session_id
      = some "session-1700000000"
  ∧ (create_session ⟨some "session-1700000000", [⟨"user", "hi"⟩]⟩ 1700000000 200 "").1.session_id
      = some "session-1700000000" := by
  constructor <;> rfl

/-- C6 as amended: two successful session creations observing *different*
integer timestamps produce distinct identifiers, and each successful
creation installs the fresh identifier and clears the local message
history. -/
theorem create_session_fresh_distinct (st₁ st₂ : SessionState) (t₁ t₂ : Nat)
    (b₁ b₂ : String) (h : t₁ ≠ t₂) :
    (create_session st₁ t₁ 200 b₁).1.session_id = some ("session-" ++ decimalRepr t₁)
  ∧ (create_session st₁ t₁ 200 b₁).1.messages = []
  ∧ (create_session st₁ t₁ 200 b₁).2.1 = true
  ∧ (create_session st₁ t₁ 200 b₁).1.session_id
      ≠ (create_session st₂ t₂ 200 b₂).1.session_id := by
  refine ⟨rfl, rfl, rfl, fun he => h ?_⟩
  rw [show (create_session st₁ t₁ 200 b₁).1.session_id
        = some ("session-" ++ decimalRepr t₁) from rfl,
      show (create_session st₂ t₂ 200 b₂).1.session_id
        = some ("session-" ++ decimalRepr t₂) from rfl] at he
  have he' := Option.some.inj he
  apply decimalRepr_injective
  apply String.ext
  have hd := congrArg String.data he'
  rw [String.data_append, String.data_append] at hd
  exact List.append_cancel_left hd

/-- Witness for the amended C6 at timestamps 1 and 2. -/
theorem create_session_fresh_distinct_witness :
    (create_session ⟨none, []⟩ 1 200 "").1.session_id = some ("session-" ++ decimalRepr 1)
  ∧ (create_session ⟨none, []⟩ 1 200 "").1.messages = []
  ∧ (create_session ⟨none, []⟩ 1 200 "").2.1 = true
  ∧ (create_session ⟨none, []⟩ 1 200 "").1.session_id
      ≠ (create_session ⟨some "session-1", []⟩ 2 200 "").1.session_id :=
  create_session_fresh_distinct ⟨none, []⟩ ⟨some "session-1", []⟩ 1 2 "" "" (by decide)

/-! ## The scan of `send_message` versus the spec's selection rule -/

theorem specLastModelText_cons (e : Event) (rest : List Event) :
    specLastModelText (e :: rest)
      = match specLastModelText rest with
        | some t => some t
        | none => if isModelTextEvent e then firstPartText e else none := by
  simp only [specLastModelText, List.reverse_cons, List.find?_append]
  cases hf : rest.reverse.find? isModelTextEvent with
  | none =>
    simp only [hf, Option.none_bind]
    cases hP : isModelTextEvent e <;>
      simp [Option.or, List.find?, hP]
  | some e' =>
    have hPe' := List.find?_some hf
    simp only [isModelTextEvent, Bool.and_eq_true, beq_iff_eq,
      Option.isSome_iff_exists] at hPe'
    obtain ⟨t, ht⟩ := hPe'.2
    simp [hf, Option.or, ht]

/-- The loop of lines 180–183 computes exactly the spec's "last model-role
event whose first part has text", provided it never indexes into an
explicitly empty `parts` list. -/
theorem scanEvents_eq_spec (events : List Event) (acc : Option String)
    (h : ∀ e ∈ events, contentRole e = some "model" → contentParts e ≠ []) :
    scanEvents events acc
      = .ok (match specLastModelText events with
             | some t => some t
             | none => acc) := by
  induction events generalizing acc with
  | nil => rfl
  | cons e rest ih =>
    have he := h e (by simp)
    have hrest : ∀ e' ∈ rest, contentRole e' = some "model" → contentParts e' ≠ [] :=
      fun e' he' => h e' (by simp [he'])
    rw [specLastModelText_cons]
    rw [scanEvents]
    by_cases hrole : contentRole e = some "model"
    · rw [if_pos hrole]
      cases hcp : contentParts e with
      | nil => exact absurd hcp (he hrole)
      | cons p ps =>
        have hfp : firstPartText e = partText p := by
          simp [firstPartText, hcp]
        cases hpt : partText p with
        | some t =>
          simp only [hpt]
          have hme : isModelTextEvent e = true := by
            simp [isModelTextEvent, hrole, hfp, hpt]
          rw [ih (some t) hrest]
          cases hs : specLastModelText rest <;> simp [hme, hfp, hpt, hs]
        | none =>
          simp only [hpt]
          have hme : isModelTextEvent e = false := by
            simp [isModelTextEvent, hfp, hpt]
          rw [ih acc hrest]
          cases hs : specLastModelText rest <;> simp [hme, hs]
    · rw [if_neg hrole]
      have hme : isModelTextEvent e = false := by
        simp [isModelTextEvent, hrole]
      rw [ih acc hrest]
      cases hs : specLastModelText rest <;> simp [hme, hs]

/-! ## Claim C1 -/

/-- Counterexamples to C1, at two concrete inputs.  (1) On an event list
whose only model-role event carries an explicitly empty `parts` array, no
event satisfies the claim's selection rule, so the claim requires the "No
response received from the model." warning; but the code's `parts[0]`
raises `IndexError`, which the generic handler turns into a different
message ("Unexpected error: list index out of range").  (2) On an event
list whose last (only) model-role event has `"text": ""` in its first part,
the claim requires that empty text to be displayed as the response; but
line 186's `if assistant_message:` finds the empty string falsy, so the
code appends the no-response warning and returns `False` instead. -/
theorem send_message_empty_cases_counterexample :
    specLastModelText [⟨some ⟨some "model", some []⟩⟩] = none
  ∧ send_message (some "session-1") [] "hi" (.ok [⟨some ⟨some "model", some []⟩⟩])
      = ([⟨"user", "hi"⟩,
          ⟨"assistant", "⚠️ Unexpected error: list index out of range"⟩], false)
  ∧ "⚠️ Unexpected error: list index out of range"
      ≠ "⚠️ No response received from the model."
  ∧ specLastModelText [⟨some ⟨some "model", some [[("text", "")]]⟩⟩] = some ""
  ∧ send_message (some "session-1") [] "hi"
      (.ok [⟨some ⟨some "model", some [[("text", "")]]⟩⟩])
      = ([⟨"user", "hi"⟩,
          ⟨"assistant", "⚠️ No response received from the model."⟩], false) := by
  refine ⟨rfl, rfl, by decide, rfl, rfl⟩

/-- C1 as amended: provided no model-role event carries an explicitly empty
`parts` array (that case instead raises `IndexError` and lands in the
generic "Unexpected error" handler — see the counterexample),
`send_message` selects the text of the last event whose content role is
"model" and whose first part contains a "text" field (earlier model texts
are overwritten); if that text is nonempty it is appended as the assistant
turn and `True` is returned, while if no such event exists *or* the
selected text is the empty string (falsy under line 186's
`if assistant_message:`), the "⚠️ No response received from the model."
warning is appended as an assistant turn and `False` is returned. -/
theorem send_message_selects_last_model_text (sid : String) (hist : List ChatMessage)
    (msg : String) (events : List Event) (hsid : sid ≠ "")
    (h : ∀ e ∈ events, contentRole e = some "model" → contentParts e ≠ []) :
    (∀ t, specLastModelText events = some t → t ≠ "" →
      send_message (some sid) hist msg (.ok events)
        = (hist ++ [⟨"user", msg⟩, ⟨"assistant", t⟩], true))
  ∧ (specLastModelText events = none ∨ specLastModelText events = some "" →
      send_message (some sid) hist msg (.ok events)
        = (hist ++ [⟨"user", msg⟩,
            ⟨"assistant", "⚠️ No response received from the model."⟩], false)) := by
  constructor
  · intro t ht htne
    have hscan := scanEvents_eq_spec events none h
    rw [ht] at hscan
    simp [send_message, hsid, hscan, htne]
  · intro ht
    have hscan := scanEvents_eq_spec events none h
    rcases ht with ht | ht <;> rw [ht] at hscan <;>
      simp [send_message, hsid, hscan]

/-- Witness for the amended C1: a two-event exchange where an earlier model
text is overwritten by the last, nonempty one. -/
theorem send_message_selects_last_model_text_witness :
    send_message (some "session-1") [] "hi"
      (.ok [⟨some ⟨some "model", some [[("text", "thinking")]]⟩⟩,
            ⟨some ⟨some "model", some [[("text", "Hi there")]]⟩⟩])
      = ([⟨"user", "hi"⟩, ⟨"assistant", "Hi there"⟩], true) := by
  have h := send_message_selects_last_model_text "session-1" [] "hi"
    [⟨some ⟨some "model", some [[("text", "thinking")]]⟩⟩,
     ⟨some ⟨some "model", some [[("text", "Hi there")]]⟩⟩]
    (by decide) (by decide)
  exact h.1 "Hi there" (by decide) (by decide)

/-! ## Claim C2 -/

/-- The generic API-error text can never collide with a message that does
not start with the letter `A`. -/
theorem api_error_msg_ne (s : Nat) (r t : String) (h : t.data.head? ≠ some 'A') :
    "API Error: " ++ decimalRepr s ++ " - " ++ r ≠ t := by
  intro he
  apply h
  rw [← he]
  rfl

/-- C2: every handled turn-execution failure — HTTP error status (with the
special "overloaded" text when the status is 503), timeout (whose message
contains "timed out"), connection error, malformed JSON — appends exactly
one ⚠️-prefixed assistant message to the history, returns `False` (no
retry), and does not crash (the embedding of the handler chain is total).
The per-category message texts are pairwise distinct. -/
theorem send_message_handled_failure (sid : String) (hist : List ChatMessage)
    (msg : String) (res : ApiResult) (hsid : sid ≠ "")
    (hres : isHandledFailure res = true) :
    (∃ w : String,
      send_message (some sid) hist msg res
        = (hist ++ [⟨"user", msg⟩, ⟨"assistant", "⚠️ " ++ w⟩], false)
      ∧ (res = ApiResult.timeout → w = "Request timed out. The server might be busy.")
      ∧ (res = ApiResult.timeout → ∃ p q, "⚠️ " ++ w = p ++ "timed out" ++ q)
      ∧ (res = ApiResult.connectionError →
          w = "Connection error. Please check if the API server is running.")
      ∧ (res = ApiResult.jsonError → w = "Invalid response format from the server.")
      ∧ (∀ r, res = ApiResult.httpError 503 r →
          w = "The model is currently overloaded. Please try again in a few moments.")
      ∧ (∀ s r, res = ApiResult.httpError s r → s ≠ 503 →
          w = "API Error: " ++ decimalRepr s ++ " - " ++ r))
  ∧ ["Request timed out. The server might be busy.",
     "Connection error. Please check if the API server is running.",
     "Invalid response format from the server.",
     "The model is currently overloaded. Please try again in a few moments."].Pairwise (· ≠ ·)
  ∧ (∀ s r, s ≠ 503 →
      ("API Error: " ++ decimalRepr s ++ " - " ++ r)
        ∉ ["Request timed out. The server might be busy.",
           "Connection error. Please check if the API server is running.",
           "Invalid response format from the server.",
           "The model is currently overloaded. Please try again in a few moments."]) := by
  refine ⟨?_, by decide, ?_⟩
  · cases res with
    | httpError s r =>
      by_cases h503 : s = 503
      · subst h503
        exact ⟨"The model is currently overloaded. Please try again in a few moments.",
          by simp [send_message, hsid], by simp, by simp, by simp, by simp,
          by simp, by simp⟩
      · exact ⟨"API Error: " ++ decimalRepr s ++ " - " ++ r,
          by simp [send_message, hsid, h503], by simp, by simp, by simp, by simp,
          by simp [h503], by simp⟩
    | timeout =>
      exact ⟨"Request timed out. The server might be busy.",
        by simp [send_message, hsid], by simp,
        fun _ => ⟨"⚠️ Request ", ". The server might be busy.", by decide⟩,
        by simp, by simp, by simp, by simp⟩
    | connectionError =>
      exact ⟨"Connection error. Please check if the API server is running.",
        by simp [send_message, hsid], by simp, by simp, by simp, by simp, by simp, by simp⟩
    | jsonError =>
      exact ⟨"Invalid response format from the server.",
        by simp [send_message, hsid], by simp, by simp, by simp, by simp, by simp, by simp⟩
    | ok events => exact absurd hres (by simp [isHandledFailure])
  · intro s r _ hmem
    simp only [List.mem_cons, List.not_mem_nil, or_false] at hmem
    rcases hmem with hc | hc | hc | hc <;>
      exact api_error_msg_ne s r _ (by decide) hc

/-- Witness for C2 at a concrete timeout. -/
theorem send_message_handled_failure_witness :
    ∃ w : String,
      send_message (some "session-1") [] "hi" ApiResult.timeout
        = ([⟨"user", "hi"⟩, ⟨"assistant", "⚠️ " ++ w⟩], false) := by
  obtain ⟨w, hw, -⟩ :=
    (send_message_handled_failure "session-1" [] "hi" ApiResult.timeout
      (by decide) (by decide)).1
  exact ⟨w, hw⟩

/-! ## Claim C3 -/

/-- Counterexamples to C3, at two concrete failure patterns.  (1) A failing
`Agent_Search` construction (unguarded, src/agent.py line 130) propagates
the original exception out of module initialization.  (2) Even a failing
*guarded* `interview_agent` construction aborts import: the `except`
handler's log f-string dereferences the still-`None` variable
(`interview_agent.model`, line 109) and raises `AttributeError`, so the
agent is never "left `None` with the failure logged". -/
theorem module_init_failure_counterexample :
    guarded AgentName.agent_search = false
  ∧ module_init (fun a => decide (a = AgentName.agent_search))
      = Except.error (InitFailure.constructorError AgentName.agent_search)
  ∧ guarded AgentName.interview_agent = true
  ∧ module_init (fun a => decide (a = AgentName.interview_agent))
      = Except.error (InitFailure.handlerAttributeError AgentName.interview_agent) :=
  ⟨rfl, rfl, rfl, rfl⟩

/-- Characterization of the import of src/agent.py: it succeeds exactly
when no leaf-agent construction fails, and then every leaf variable is
bound. -/
theorem module_init_ok_iff (fails : AgentName → Bool) (st : LeafAgentsState) :
    module_init fails = .ok st
      ↔ (fails .interview_agent = false ∧ fails .farewell_agent = false
          ∧ fails .agent_search = false ∧ fails .diet_writer_agent = false
          ∧ fails .grocery_promo_scout = false ∧ fails .grocery_shopper = false
          ∧ fails .formatter_agent = false
          ∧ st = ⟨true, true, true, true, true, true, true⟩) := by
  unfold module_init
  split_ifs with h1 h2 h3 h4 h5 h6 h7
  · simp [h1]
  · simp [h1, h2]
  · simp [h1, h2, h3]
  · simp [h1, h2, h3, h4]
  · simp [h1, h2, h3, h4, h5]
  · simp [h1, h2, h3, h4, h5, h6]
  · simp [h1, h2, h3, h4, h5, h6, h7]
  · constructor
    · intro h
      exact ⟨by simpa using h1, by simpa using h2, by simpa using h3,
        by simpa using h4, by simpa using h5, by simpa using h6,
        by simpa using h7, (Except.ok.inj h).symm⟩
    · rintro ⟨-, -, -, -, -, -, -, rfl⟩
      rfl

/-- C3 as amended: no leaf-agent construction failure is survived.  The
module import either succeeds with every leaf variable bound (exactly when
no construction fails), or aborts with the failure mode of the first failing
agent in source order: for the guarded agents (`interview_agent`,
`farewell_agent`) an `AttributeError` raised by their own `except` handler
— which dereferences the still-`None` variable before logging anything —
and for the five unguarded agents the original constructor exception. -/
theorem module_init_abort_policy (fails : AgentName → Bool) :
    (module_init fails = Except.ok ⟨true, true, true, true, true, true, true⟩
      ∨ ∃ a ∈ leafAgents, fails a = true
          ∧ module_init fails
              = Except.error
                  (if guarded a then InitFailure.handlerAttributeError a
                   else InitFailure.constructorError a))
  ∧ ((∀ a ∈ leafAgents, fails a = false) →
      module_init fails = Except.ok ⟨true, true, true, true, true, true, true⟩)
  ∧ (∀ a ∈ leafAgents, fails a = true → ∀ st, module_init fails ≠ Except.ok st) := by
  refine ⟨?_, ?_, ?_⟩
  · by_cases h1 : fails AgentName.interview_agent = true
    · exact Or.inr ⟨.interview_agent, by decide, h1, by simp [module_init, h1, guarded]⟩
    · by_cases h2 : fails AgentName.farewell_agent = true
      · exact Or.inr ⟨.farewell_agent, by decide, h2,
          by simp [module_init, h1, h2, guarded]⟩
      · by_cases h3 : fails AgentName.agent_search = true
        · exact Or.inr ⟨.agent_search, by decide, h3,
            by simp [module_init, h1, h2, h3, guarded]⟩
        · by_cases h4 : fails AgentName.diet_writer_agent = true
          · exact Or.inr ⟨.diet_writer_agent, by decide, h4,
              by simp [module_init, h1, h2, h3, h4, guarded]⟩
          · by_cases h5 : fails AgentName.grocery_promo_scout = true
            · exact Or.inr ⟨.grocery_promo_scout, by decide, h5,
                by simp [module_init, h1, h2, h3, h4, h5, guarded]⟩
            · by_cases h6 : fails AgentName.grocery_shopper = true
              · exact Or.inr ⟨.grocery_shopper, by decide, h6,
                  by simp [module_init, h1, h2, h3, h4, h5, h6, guarded]⟩
              · by_cases h7 : fails AgentName.formatter_agent = true
                · exact Or.inr ⟨.formatter_agent, by decide, h7,
                    by simp [module_init, h1, h2, h3, h4, h5, h6, h7, guarded]⟩
                · exact Or.inl (by simp [module_init, h1, h2, h3, h4, h5, h6, h7])
  · intro hall
    exact (module_init_ok_iff fails _).mpr
      ⟨hall _ (by decide), hall _ (by decide), hall _ (by decide),
       hall _ (by decide), hall _ (by decide), hall _ (by decide),
       hall _ (by decide), rfl⟩
  · intro a ha hfa st heq
    have hok := (module_init_ok_iff fails st).mp heq
    fin_cases ha <;> simp_all

/-- Witness for the amended C3: when nothing fails, import succeeds with
every leaf agent set. -/
theorem module_init_abort_policy_witness :
    module_init (fun _ => false)
      = Except.ok ⟨true, true, true, true, true, true, true⟩ :=
  (module_init_abort_policy (fun _ => false)).2.1 (fun _ _ => rfl)

/-! ## Claim C4 -/

/-- Counterexample to C4: `interview_agent` is constructed with no callback
arguments at all, and even `Agent_Search` omits `before_agent_callback`, so
not every agent has all six lifecycle slots populated. -/
theorem callbacks_not_all_six_counterexample :
    (callbacksOf AgentName.interview_agent).before_agent_callback = none
  ∧ (callbacksOf AgentName.agent_search).before_agent_callback = none
  ∧ fullOpikCallbacks.before_agent_callback = some "opik_tracer.before_agent_callback"
  ∧ callbacksOf AgentName.interview_agent ≠ fullOpikCallbacks
  ∧ callbacksOf AgentName.agent_search ≠ fullOpikCallbacks :=
  ⟨rfl, rfl, rfl, by decide, by decide⟩

/-- C4 as amended: only `personalized_diet_agent` populates all six
lifecycle callback slots; `Agent_Search`, `diet_writer_agent`,
`grocery_promo_scout`, `grocery_shopper` and `formatter_agent` populate
five of them (all but before-agent); `interview_agent` and `farewell_agent`
populate none.  Every slot that *is* populated holds the corresponding
`opik_tracer` method. -/
theorem callbacks_population :
    callbacksOf AgentName.personalized_diet_agent = fullOpikCallbacks
  ∧ callbacksOf AgentName.agent_search
      = { fullOpikCallbacks with before_agent_callback := none }
  ∧ callbacksOf AgentName.diet_writer_agent
      = { fullOpikCallbacks with before_agent_callback := none }
  ∧ callbacksOf AgentName.grocery_promo_scout
      = { fullOpikCallbacks with before_agent_callback := none }
  ∧ callbacksOf AgentName.grocery_shopper
      = { fullOpikCallbacks with before_agent_callback := none }
  ∧ callbacksOf AgentName.formatter_agent
      = { fullOpikCallbacks with before_agent_callback := none }
  ∧ callbacksOf AgentName.interview_agent = ⟨none, none, none, none, none, none⟩
  ∧ callbacksOf AgentName.farewell_agent = ⟨none, none, none, none, none, none⟩ :=
  ⟨rfl, rfl, rfl, rfl, rfl, rfl, rfl, rfl⟩

end DietAgent
